import Mathlib

/-!
Verification of the tracker personal-finance backend.

The definitions below are a shallow embedding of the JavaScript backend:
the request handlers of `src/backend/controllers/transactionController.js`,
the category and analytics controllers, the auth middleware
(`authenticateToken`, `checkDataOwnership`), and the cache middleware
(`src/backend/middleware/cache.js`, `src/backend/config/redis.js`).
JavaScript numbers that can be `NaN` are modelled as `Option Int`
(`none` = `NaN`); the database is an explicit record of lists; strings
use Lean `String` with character-list helpers so that everything
evaluates inside the kernel.
-/

namespace Tracker

/-! ## JavaScript primitive semantics -/

/-- JS whitespace characters skipped by `parseInt` before parsing. -/
def isJsSpace (c : Char) : Bool :=
  c == ' ' || c == '\t' || c == '\n' || c == '\r'

/-- Accumulate the value of a run of decimal digits. -/
def decDigitsVal (acc : Nat) : List Char → Nat
  | [] => acc
  | c :: rest => decDigitsVal (acc * 10 + (c.toNat - '0'.toNat)) rest

/-- Parse the longest leading run of decimal digits; `none` when there is
no leading digit (the `NaN` case of `parseInt`). -/
def jsParseDigits (l : List Char) : Option Nat :=
  let ds := l.takeWhile Char.isDigit
  if ds.isEmpty then none else some (decDigitsVal 0 ds)

/-- JS `parseInt(s)` in base 10: skip leading whitespace, read an optional
sign, then the longest run of decimal digits; `none` models `NaN`.
(The hexadecimal `0x` prefix of `parseInt` is not modelled; no claim
depends on it.) -/
def jsParseInt (s : String) : Option Int :=
  match s.data.dropWhile isJsSpace with
  | '+' :: rest => (jsParseDigits rest).map (fun n => (n : Int))
  | '-' :: rest => (jsParseDigits rest).map (fun n => -(n : Int))
  | l => (jsParseDigits l).map (fun n => (n : Int))

/-- JS `Math.max(a, x)` where `x` may be `NaN`: `NaN` propagates. -/
def jsMaxNum (a : Int) (x : Option Int) : Option Int :=
  x.map (fun v => max a v)

/-- JS `Math.min(a, x)` where `x` may be `NaN`: `NaN` propagates. -/
def jsMinNum (a : Int) (x : Option Int) : Option Int :=
  x.map (fun v => min a v)

/-- JS `x || d` for an optional string `x`: the default is used when the
value is absent or the empty string (falsy). -/
def jsOrString (x : Option String) (d : String) : String :=
  match x with
  | none => d
  | some s => if s = "" then d else s

/-- Whether `sub` occurs as a contiguous sublist of the second list. -/
def containsSublist (sub : List Char) : List Char → Bool
  | [] => sub.isEmpty
  | c :: rest => List.isPrefixOf sub (c :: rest) || containsSublist sub rest

/-- JS `s.includes(sub)`. -/
def jsIncludes (s sub : String) : Bool :=
  containsSublist sub.data s.data

/-- String prefix test on the underlying character lists. -/
def strIsPrefixOf (p s : String) : Bool :=
  List.isPrefixOf p.data s.data

/-! ## Data model (src/unnamed/part_003 migration schema) -/

/-- The income/expense discriminator shared by categories and
transactions (column `type` in both tables). -/
inductive Kind
  | income
  | expense
  deriving DecidableEq, Repr

/-- A row of the `categories` table. -/
structure Category where
  id : Nat
  name : String
  type : Kind
  color : String
  deriving DecidableEq, Repr

/-- A row of the `transactions` table.  Monetary amounts are modelled as
integers (no claim depends on fractional cents) and dates as day
numbers. -/
structure Transaction where
  id : Nat
  user_id : Nat
  amount : Int
  description : String
  type : Kind
  category_id : Nat
  date : Nat
  deriving DecidableEq, Repr

/-- Roles from the `users` table check constraint. -/
inductive Role
  | admin
  | user
  | readOnly
  deriving DecidableEq, Repr

/-- A row of the `users` table (fields used by the middleware). -/
structure User where
  id : Nat
  email : String
  name : String
  role : Role
  deriving DecidableEq, Repr

/-- The relational database state. -/
structure Db where
  users : List User
  categories : List Category
  transactions : List Transaction
  deriving DecidableEq, Repr

/-! ## Pagination (transactionController.js getTransactions, lines 28-43) -/

/-- Embeds `const pageNum = Math.max(1, parseInt(page))` with the destructuring
default `page = 1` applied when the parameter is absent.  `none` is the
`NaN` outcome. -/
def pageNum (page : Option String) : Option Int :=
  jsMaxNum 1 (jsParseInt (page.getD "1"))

/-- Embeds `const limitNum = Math.min(100, Math.max(1, parseInt(limit)))` with
the destructuring default `limit = 10`. -/
def limitNum (limit : Option String) : Option Int :=
  jsMinNum 100 (jsMaxNum 1 (jsParseInt (limit.getD "10")))

/-! ## Transaction handlers (src/backend/controllers/transactionController.js) -/

/-- Request body of transaction create/update (after express-validator
has accepted it). -/
structure TxnBody where
  amount : Int
  description : String
  type : Kind
  category_id : Nat
  date : Nat
  deriving DecidableEq, Repr

/-- The `AND user_id = $2` clause the handlers append to their SQL when
the caller is not an admin (the ternary on `req.user.role` that yields null for admins and `req.user.id` otherwise). -/
def ownerFilter (role : Role) (callerId : Nat) (t : Transaction) : Bool :=
  match role with
  | Role.admin => true
  | _ => t.user_id == callerId

/-- Embeds `getTransaction` (lines 149-202): select by id, restricted to the
caller for non-admins; empty result is 404, otherwise 200. -/
def getTransactionStatus (db : Db) (role : Role) (callerId : Nat) (id : Nat) : Nat :=
  let rows := db.transactions.filter (fun t => t.id == id && ownerFilter role callerId t)
  if rows.isEmpty then 404 else 200

/-- Embeds `createTransaction` (lines 205-281): the referenced category must
exist (else 400) and its kind must equal the submitted kind (else 400);
only then is the row inserted (201). -/
def createTransaction (db : Db) (callerId : Nat) (b : TxnBody) (newId : Nat) : Nat × Db :=
  match db.categories.find? (fun c => c.id == b.category_id) with
  | none => (400, db)
  | some c =>
    if c.type ≠ b.type then (400, db)
    else
      (201, { db with transactions :=
        db.transactions ++ [⟨newId, callerId, b.amount, b.description, b.type, b.category_id, b.date⟩] })

/-- Embeds `updateTransaction` (lines 284-378): first re-select the target row
by id, with the ownership clause for non-admins; empty result is 404
with no mutation; then the same category checks as create; finally the
row is updated by id. -/
def updateTransaction (db : Db) (role : Role) (callerId : Nat) (id : Nat) (b : TxnBody) : Nat × Db :=
  let existing := db.transactions.filter (fun t => t.id == id && ownerFilter role callerId t)
  if existing.isEmpty then (404, db)
  else
    match db.categories.find? (fun c => c.id == b.category_id) with
    | none => (400, db)
    | some c =>
      if c.type ≠ b.type then (400, db)
      else
        (200, { db with transactions := db.transactions.map (fun t =>
          if t.id == id then
            { t with amount := b.amount, description := b.description, type := b.type,
                     category_id := b.category_id, date := b.date }
          else t) })

/-- Embeds `deleteTransaction` (lines 381-419): re-select under the same
ownership clause; empty result is 404 with no mutation; otherwise the
row is deleted by id. -/
def deleteTransaction (db : Db) (role : Role) (callerId : Nat) (id : Nat) : Nat × Db :=
  let existing := db.transactions.filter (fun t => t.id == id && ownerFilter role callerId t)
  if existing.isEmpty then (404, db)
  else (200, { db with transactions := db.transactions.filter (fun t => !(t.id == id)) })

/-! ## Category update (src/unnamed/part_004, updateCategory lines 138-202) -/

/-- Embeds `updateCategory`: 404 when the id does not exist, 409 when another
category already has the requested name, otherwise the name, kind and
color are all overwritten.  No check against transactions referencing
the category is performed. -/
def updateCategory (db : Db) (id : Nat) (name : String) (ctype : Kind) (color : String) : Nat × Db :=
  if (db.categories.find? (fun c => c.id == id)).isNone then (404, db)
  else if (db.categories.find? (fun c => c.name == name && c.id != id)).isSome then (409, db)
  else
    (200, { db with categories := db.categories.map (fun c =>
      if c.id == id then { c with name := name, type := ctype, color := color } else c) })

/-- The invariant of spec section 3: every transaction has the kind of
the category it references. -/
def kindInvariant (db : Db) : Prop :=
  ∀ t ∈ db.transactions, ∀ c ∈ db.categories, t.category_id = c.id → t.type = c.type

instance (db : Db) : Decidable (kindInvariant db) := by
  unfold kindInvariant
  exact inferInstance

/-- Primary-key uniqueness of category ids (ensured by the schema
`id SERIAL PRIMARY KEY`). -/
def uniqueCategoryIds (db : Db) : Prop :=
  (db.categories.map Category.id).Nodup

instance (db : Db) : Decidable (uniqueCategoryIds db) := by
  unfold uniqueCategoryIds
  exact inferInstance

/-! ## Auth middleware (src/unnamed/part_001, lines 151-272) -/

/-- Outcome of `jwt.verify` for a given token string: a valid signature
yields the encoded user id, a malformed or badly signed token raises
`JsonWebTokenError`, a validly signed but expired token raises
`TokenExpiredError`.  The jsonwebtoken library is an external
dependency, so verification is an abstract parameter. -/
inductive VerifyResult
  | ok (userId : Nat)
  | malformed
  | expired
  deriving DecidableEq, Repr

/-- Result of a middleware: either the request proceeds or it is
answered with a status and message. -/
inductive AuthResult
  | success (u : User)
  | failure (status : Nat) (message : String)
  deriving DecidableEq, Repr

/-- Embeds `const token = authHeader && authHeader.split(...)[1]`: the token is
the second space-separated word of the Authorization header; a missing
header, a header without a second word, or an empty second word (falsy)
all leave no token. -/
def extractToken (authHeader : Option String) : Option String :=
  match authHeader with
  | none => none
  | some h =>
    match (h.data.splitOn ' ').get? 1 with
    | none => none
    | some tok => if tok.isEmpty then none else some (String.mk tok)

/-- Embeds `authenticateToken` (lines 151-200): 401 "Access token is required"
without a token; `jwt.verify` errors map to 401 "Invalid token" and
401 "Token expired"; a verified id whose user row no longer exists is
401 "Invalid token - user not found"; otherwise the resolved user is
attached. -/
def authenticateToken (verify : String → VerifyResult) (users : List User)
    (authHeader : Option String) : AuthResult :=
  match extractToken authHeader with
  | none => AuthResult.failure 401 "Access token is required"
  | some tok =>
    match verify tok with
    | VerifyResult.malformed => AuthResult.failure 401 "Invalid token"
    | VerifyResult.expired => AuthResult.failure 401 "Token expired"
    | VerifyResult.ok uid =>
      match users.find? (fun u => u.id == uid) with
      | none => AuthResult.failure 401 "Invalid token - user not found"
      | some u => AuthResult.success u

/-- Gate outcome of `checkDataOwnership`. -/
inductive GateResult
  | proceed
  | deny (status : Nat) (message : String)
  deriving DecidableEq, Repr

/-- Embeds `checkDataOwnership` (lines 229-272): admins pass unconditionally;
otherwise, only when `req.route.path.includes(..)` finds `/transactions` and an
id parameter is present, the transaction row is looked up (missing row
404, row of a different owner 403); in every other case the gate calls
`next()`. -/
def checkDataOwnership (db : Db) (role : Role) (callerId : Nat)
    (routePath : String) (idParam : Option Nat) : GateResult :=
  if role == Role.admin then GateResult.proceed
  else if jsIncludes routePath "/transactions" then
    match idParam with
    | none => GateResult.proceed
    | some i =>
      match db.transactions.find? (fun t => t.id == i) with
      | none => GateResult.deny 404 "Transaction not found"
      | some t =>
        if t.user_id != callerId then GateResult.deny 403 "Access denied - not your transaction"
        else GateResult.proceed
  else GateResult.proceed

/-- In Express, `req.route.path` is the pattern registered on the
router, not the mount path: the single-transaction routes are declared
with the route pattern `/:id` for get, put and delete
in src/backend/routes/transactions.js, so
inside their middleware `req.route.path` is `"/:id"`. -/
def transactionIdRoutePath : String := "/:id"

/-- The GET /api/transactions/:id pipeline after role check: the
ownership gate followed by the `getTransaction` handler; the result is
the response status. -/
def singleTransactionGetPipeline (db : Db) (role : Role) (callerId : Nat) (id : Nat) : Nat :=
  match checkDataOwnership db role callerId transactionIdRoutePath (some id) with
  | GateResult.deny s _ => s
  | GateResult.proceed => getTransactionStatus db role callerId id

/-! ## Cache layer (src/backend/middleware/cache.js, src/backend/config/redis.js) -/

/-- Query parameters of GET /api/transactions (spec section 6). -/
structure TxQuery where
  page : Option String
  limit : Option String
  category : Option String
  type : Option String
  search : Option String
  start_date : Option String
  end_date : Option String
  sort_by : Option String
  sort_order : Option String
  deriving DecidableEq, Repr

/-- Embeds `transactionsKeyGenerator` (cache.js lines 46-50).  The user id is a
number interpolated into a template string; it is passed here already
rendered in decimal.  `page` and `limit` take their destructuring
defaults only when absent, while the or-defaults `all`, `all` and `none` used for
category, type and search also replace the falsy empty string.  The
`start_date`, `end_date`, `sort_by` and `sort_order` parameters do not
appear. -/
def transactionsKeyGenerator (userId : String) (q : TxQuery) : String :=
  "transactions:" ++ userId ++ ":" ++ q.page.getD "1" ++ ":" ++ q.limit.getD "10" ++ ":"
    ++ jsOrString q.category "all" ++ ":" ++ jsOrString q.type "all" ++ ":"
    ++ jsOrString q.search "none"

/-- Embeds `analyticsKeyGenerator` (cache.js lines 40-44). -/
def analyticsKeyGenerator (userId : String) (period : Option String) : String :=
  "analytics:" ++ userId ++ ":" ++ period.getD "month"

/-- Embeds `userAnalyticsKeyGenerator` (cache.js lines 56-59). -/
def userAnalyticsKeyGenerator (userId : String) : String :=
  "user_analytics:" ++ userId

/-- Embeds `categoriesKeyGenerator` (cache.js lines 52-54). -/
def categoriesKeyGenerator : String := "categories:all"

/-- A serialized JSON response body: its `success` flag (`none` when the
field is absent) and the rest of the payload, kept abstract. -/
structure JsonBody where
  success : Option Bool
  payload : String
  deriving DecidableEq, Repr

/-- An HTTP response: status code and JSON body. -/
structure Response where
  status : Nat
  body : JsonBody
  deriving DecidableEq, Repr

/-- The Redis key space: key, stored body, TTL in seconds. -/
abbrev Cache := List (String × JsonBody × Nat)

/-- Embeds `getCache` restricted to a reachable store. -/
def cacheGet (cache : Cache) (key : String) : Option JsonBody :=
  (cache.find? (fun e => e.1 == key)).map (fun e => e.2.1)

/-- Embeds `setCache` via `client.setEx`: overwrites the key with the payload
and TTL. -/
def cacheSet (cache : Cache) (key : String) (body : JsonBody) (ttl : Nat) : Cache :=
  (key, body, ttl) :: cache.filter (fun e => !(e.1 == key))

/-- Embeds `cacheMiddleware` (cache.js lines 4-37) for one request whose key
the generator has already produced: on a hit the cached body is
returned verbatim with status 200 and the handler is skipped; on a miss
the handler response is sent unchanged, and only when its status is 200
and its `success` field is not `false` is the body stored under the key
with the given TTL.  The stores failure mode
(`setCache(...).catch(...)`) is the `cacheWriteOk = false` case: the
store is left unchanged and the response is not affected. -/
def cacheMiddleware (expiration : Nat) (key : String) (handler : Response)
    (cache : Cache) (cacheWriteOk : Bool) : Response × Cache :=
  match cacheGet cache key with
  | some cached => ({ status := 200, body := cached }, cache)
  | none =>
    if handler.status = 200 ∧ handler.body.success ≠ some false then
      (handler, if cacheWriteOk then cacheSet cache key handler.body expiration else cache)
    else (handler, cache)

/-- Embeds `cacheAnalytics = cacheMiddleware(analyticsKeyGenerator, 15 * 60)`. -/
def cacheAnalytics := cacheMiddleware (15 * 60)

/-- Embeds `cacheTransactions = cacheMiddleware(transactionsKeyGenerator, 5 * 60)`. -/
def cacheTransactions := cacheMiddleware (5 * 60)

/-- Embeds `cacheCategories = cacheMiddleware(categoriesKeyGenerator, 60 * 60)`. -/
def cacheCategories := cacheMiddleware (60 * 60)

/-- Embeds `deleteCachePattern` (redis.js lines 63-75) for the patterns this
code base uses, which are all a literal followed by a single trailing
`*`: `client.keys(p ++ "*")` returns exactly the keys having `p` as a
literal prefix, and those keys are deleted. -/
def deleteCachePattern (cache : Cache) (p : String) : Cache :=
  cache.filter (fun e => !(strIsPrefixOf p e.1))

/-- Embeds `invalidateUserCache` (cache.js lines 68-77): deletes the keys
matching `analytics:<id>:*`, `transactions:<id>:*` and
`user_analytics:<id>*` — note the missing colon before the star in the
last pattern. -/
def invalidateUserCache (userId : String) (cache : Cache) : Cache :=
  let c1 := deleteCachePattern cache ("analytics:" ++ userId ++ ":")
  let c2 := deleteCachePattern c1 ("transactions:" ++ userId ++ ":")
  deleteCachePattern c2 ("user_analytics:" ++ userId)

/-- Embeds `invalidateUserCacheAfterTransaction` (cache.js lines 100-124):
after a response with a 2xx status whose `success` field is not
`false`, the cache of `req.user.id` — the caller, not the owner of the
touched transaction — is invalidated. -/
def invalidateUserCacheAfterTransaction (callerId : String) (resp : Response)
    (cache : Cache) : Cache :=
  if 200 ≤ resp.status ∧ resp.status < 300 ∧ resp.body.success ≠ some false then
    invalidateUserCache callerId cache
  else cache

/-! ## Analytics (src/unnamed/part_004: getMonthlyTrends lines 454-519,
getBudgetAnalysis lines 617-739) -/

/-- Gregorian leap year. -/
def isLeapYear (y : Nat) : Bool :=
  (y % 4 == 0 && y % 100 != 0) || y % 400 == 0

/-- Days in month `m` (JS month index 0-11) of year `y`. -/
def daysInMonth (y m : Nat) : Nat :=
  if m == 1 then (if isLeapYear y then 29 else 28)
  else if m == 3 || m == 5 || m == 8 || m == 10 then 30
  else 31

/-- A JS `Date` at day granularity: `absMonth = year * 12 + monthIndex`
and a day of month in 1..31. -/
structure JsDate where
  absMonth : Nat
  day : Nat
  deriving DecidableEq, Repr

/-- Days in the month numbered `am` (absolute month count). -/
def daysInAbsMonth (am : Nat) : Nat :=
  daysInMonth (am / 12) (am % 12)

/-- JS `Date` normalization after `setMonth`: a day of month beyond the
length of the target month rolls over into the following month (for a
day of at most 31 a single roll suffices, since every month has at
least 28 days). -/
def normDate (am d : Nat) : JsDate :=
  if d ≤ daysInAbsMonth am then ⟨am, d⟩ else ⟨am + 1, d - daysInAbsMonth am⟩

/-- The month keys produced by the fill loop of `getMonthlyTrends`
(lines 487-503): `startDate` is `now` with `setMonth(month - monthsBack)`,
and entry `i` is a copy of `startDate` with
`setMonth(startDate.getMonth() + i)`; each key is the YYYY-MM part of
the resulting date. -/
def trendsMonths (now : JsDate) (monthsBack : Nat) : List Nat :=
  let startDate := normDate (now.absMonth - monthsBack) now.day
  (List.range monthsBack).map (fun i => (normDate (startDate.absMonth + i) startDate.day).absMonth)

/-- One element of the `trends` array. -/
structure TrendEntry where
  month : Nat
  income : Int
  expense : Int
  balance : Int
  deriving DecidableEq, Repr

/-- The fill loop of `getMonthlyTrends`: one entry per generated month
key, taking the aggregated `(income, expense)` pair from `monthlyData`
when present and `{ income: 0, expense: 0 }` otherwise, with
`balance = income - expense`. -/
def monthlyTrendsFill (monthlyData : Nat → Option (Int × Int)) (now : JsDate)
    (monthsBack : Nat) : List TrendEntry :=
  (trendsMonths now monthsBack).map (fun mk =>
    let d := (monthlyData mk).getD (0, 0)
    ⟨mk, d.1, d.2, d.1 - d.2⟩)

/-- Embeds `const monthsBack = Math.min(24, Math.max(1, parseInt(months)))`
with the destructuring default `months = 12`. -/
def monthsBackOf (months : Option String) : Option Int :=
  jsMinNum 24 (jsMaxNum 1 (jsParseInt (months.getD "12")))

/-- The tri-state budget status of `getBudgetAnalysis` (lines 716-717):
the ternary chain giving `over` above 100, `warning` above 80 and
`good` otherwise, on the computed budget
percentage. -/
def budgetStatus (p : ℚ) : String :=
  if p > 100 then "over" else if p > 80 then "warning" else "good"

/-- A string without a colon; user ids interpolated into cache keys are
decimal renderings of the `users.id` serial column, hence colon-free. -/
def colonFree (s : String) : Bool :=
  s.data.all (fun c => c != ':')

/-! ## Concrete inputs used by witnesses and counterexamples -/

/-- A database with one expense category referenced by one expense
transaction of user 1: the kind invariant holds. -/
def c2db : Db :=
  { users := [⟨1, "a@x", "A", Role.user⟩],
    categories := [⟨1, "Food", Kind.expense, "#6366f1"⟩],
    transactions := [⟨1, 1, 5, "lunch", Kind.expense, 1, 0⟩] }

/-- A database where transaction 7 belongs to user 1; user 2 is a
distinct non-admin caller. -/
def c3db : Db :=
  { users := [⟨1, "a@x", "A", Role.user⟩, ⟨2, "b@x", "B", Role.user⟩],
    categories := [⟨1, "Food", Kind.expense, "#6366f1"⟩],
    transactions := [⟨7, 1, 5, "rent", Kind.expense, 1, 0⟩] }

/-- GET /api/transactions query with only `start_date=2024-01-01`. -/
def q5a : TxQuery :=
  ⟨none, none, none, none, none, some "2024-01-01", none, none, none⟩

/-- GET /api/transactions query with a different date window and a
different sort than `q5a`. -/
def q5b : TxQuery :=
  ⟨none, none, none, none, none, some "2024-02-01", some "2024-03-01", some "amount", some "asc"⟩

/-- A token verifier for the auth witnesses: `tok1` is validly signed
for user 1, `exp` is validly signed but expired, anything else is
malformed. -/
def verify9 : String → VerifyResult := fun t =>
  if t = "tok1" then VerifyResult.ok 1
  else if t = "exp" then VerifyResult.expired
  else VerifyResult.malformed

/-- The credential store for the auth witnesses. -/
def users9 : List User := [⟨1, "a@x", "A", Role.user⟩]

/-! ## Helper lemmas -/

theorem ownerFilter_nonadmin (role : Role) (hrole : role ≠ Role.admin) (callerId : Nat)
    (t : Transaction) : ownerFilter role callerId t = (t.user_id == callerId) := by
  cases role with
  | admin => exact absurd rfl hrole
  | user => rfl
  | readOnly => rfl

theorem nonadmin_filter_nil (db : Db) (role : Role) (callerId i : Nat)
    (hrole : role ≠ Role.admin)
    (hno : ¬ ∃ t ∈ db.transactions, t.id = i ∧ t.user_id = callerId) :
    db.transactions.filter (fun t => t.id == i && ownerFilter role callerId t) = [] := by
  rw [List.filter_eq_nil_iff]
  intro t ht
  rw [ownerFilter_nonadmin role hrole]
  simp only [Bool.and_eq_true, beq_iff_eq, not_and]
  intro h1 h2
  exact hno ⟨t, ht, h1, h2⟩

/-! ## Claims -/

/-- C1 (corrected): for absent `page`/`limit` the defaults 1 and 10
apply, and whenever `parseInt` yields a number the clamps hold: the
effective page is at least 1 and the effective limit lies in [1,100],
with `limit=0` clamped to 1 and `limit=500` clamped to 100.  The claim
as stated fails for non-numeric strings, where `parseInt` yields `NaN`
and the `Math.max`/`Math.min` clamps propagate it (see the
counterexample). -/
theorem C1_pagination_clamps :
    pageNum none = some 1 ∧ limitNum none = some 10 ∧
    limitNum (some "0") = some 1 ∧ limitNum (some "500") = some 100 ∧
    (∀ s n, pageNum s = some n → 1 ≤ n) ∧
    (∀ s n, limitNum s = some n → 1 ≤ n ∧ n ≤ 100) := by
  refine ⟨by decide, by decide, by decide, by decide, ?_, ?_⟩
  · intro s n h
    unfold pageNum jsMaxNum at h
    rcases Option.map_eq_some'.mp h with ⟨v, _, hv⟩
    rw [← hv]
    exact le_max_left 1 v
  · intro s n h
    unfold limitNum jsMinNum jsMaxNum at h
    rw [Option.map_map] at h
    rcases Option.map_eq_some'.mp h with ⟨v, _, hv⟩
    simp only [Function.comp] at hv
    constructor
    · rw [← hv]
      exact le_min (by norm_num) (le_max_left 1 v)
    · rw [← hv]
      exact min_le_left 100 (max 1 v)

/-- C1 witness: the clamp theorem applied to the concrete inputs
`page="1"` and `limit="10"`. -/
theorem C1_pagination_clamps_witness : (1 : Int) ≤ 1 ∧ (1 : Int) ≤ 10 ∧ (10 : Int) ≤ 100 := by
  refine ⟨C1_pagination_clamps.2.2.2.2.1 (some "1") 1 (by decide), ?_⟩
  have h := C1_pagination_clamps.2.2.2.2.2 (some "10") 10 (by decide)
  exact ⟨h.1, h.2⟩

/-- C1 counterexample: for the non-numeric strings `page=abc` and
`limit=abc` the computed values are `NaN` (modelled `none`), so no
effective page at least 1 and no effective limit in [1,100] exists. -/
theorem C1_counterexample :
    pageNum (some "abc") = none ∧ limitNum (some "abc") = none ∧
    (¬ ∃ n, pageNum (some "abc") = some n ∧ 1 ≤ n) := by
  refine ⟨by decide, by decide, ?_⟩
  rintro ⟨n, hn, _⟩
  rw [show pageNum (some "abc") = none by decide] at hn
  cases hn

/-- C4 (confirmed): a non-admin update or delete first re-selects the
row filtered by both the transaction id and the caller id; when no row
matches — including when the row exists but belongs to another user —
the handler answers 404 and returns the database unchanged, so the
response never distinguishes a transaction of another user from a missing
one. -/
theorem C4_nonadmin_mutation_404 :
    ∀ (db : Db) (role : Role) (callerId i : Nat) (b : TxnBody), role ≠ Role.admin →
      (¬ ∃ t ∈ db.transactions, t.id = i ∧ t.user_id = callerId) →
      updateTransaction db role callerId i b = (404, db) ∧
      deleteTransaction db role callerId i = (404, db) := by
  intro db role callerId i b hrole hno
  have hnil := nonadmin_filter_nil db role callerId i hrole hno
  constructor
  · unfold updateTransaction
    rw [hnil]
    rfl
  · unfold deleteTransaction
    rw [hnil]
    rfl

/-- C4 witness: in `c3db`, transaction 7 exists but belongs to user 1;
non-admin caller 2 gets 404 and an unchanged database from both update
and delete. -/
theorem C4_nonadmin_mutation_404_witness :
    updateTransaction c3db Role.user 2 7 ⟨9, "x", Kind.expense, 1, 0⟩ = (404, c3db) ∧
    deleteTransaction c3db Role.user 2 7 = (404, c3db) :=
  C4_nonadmin_mutation_404 c3db Role.user 2 7 ⟨9, "x", Kind.expense, 1, 0⟩
    (by decide) (by decide)

/-- C5 (corrected): the transaction-list cache key is a deterministic
function of the user id and of only the `page`, `limit`, `category`,
`type` and `search` parameters; `start_date`, `end_date`, `sort_by` and
`sort_order` are not part of the key, so requests differing only in
those share one cache entry (see the counterexample). -/
theorem C5_key_ignores_dates_and_sort :
    ∀ (u : String) (q q' : TxQuery), q.page = q'.page → q.limit = q'.limit →
      q.category = q'.category → q.type = q'.type → q.search = q'.search →
      transactionsKeyGenerator u q = transactionsKeyGenerator u q' := by
  intro u q q' h1 h2 h3 h4 h5
  unfold transactionsKeyGenerator
  rw [h1, h2, h3, h4, h5]

/-- C5 witness: the key-shape theorem applied to the two concrete
queries `q5a` and `q5b`. -/
theorem C5_key_ignores_dates_and_sort_witness :
    transactionsKeyGenerator "1" q5a = transactionsKeyGenerator "1" q5b :=
  C5_key_ignores_dates_and_sort "1" q5a q5b rfl rfl rfl rfl rfl

/-- C5 counterexample: two GET /api/transactions requests of user 1
differing in `start_date`, `end_date`, `sort_by` and `sort_order` — all
of which influence the result set — produce the same cache key, so one
can be served from the entry of the other. -/
theorem C5_counterexample :
    q5a.start_date ≠ q5b.start_date ∧ q5a.sort_order ≠ q5b.sort_order ∧
    transactionsKeyGenerator "1" q5a = transactionsKeyGenerator "1" q5b ∧
    transactionsKeyGenerator "1" q5a = "transactions:1:1:10:all:all:none" := by
  decide

/-- C8 (corrected): the budget status boundaries are `good` for a
percentage of at most 80, `warning` strictly between 80 and up to 100,
and `over` above 100: a percentage of exactly 80 yields `good`, not
`warning` as claimed; exactly 100 yields `warning` as claimed. -/
theorem C8_budget_status :
    ∀ p : ℚ, (p ≤ 80 → budgetStatus p = "good") ∧
      (80 < p → p ≤ 100 → budgetStatus p = "warning") ∧
      (100 < p → budgetStatus p = "over") := by
  intro p
  refine ⟨fun h => ?_, fun h1 h2 => ?_, fun h => ?_⟩
  · unfold budgetStatus
    rw [if_neg (by linarith), if_neg (by linarith)]
  · unfold budgetStatus
    rw [if_neg (by linarith), if_pos h1]
  · unfold budgetStatus
    rw [if_pos h]

/-- C8 witness: the boundary theorem applied at the concrete
percentages 50, 90 and 150. -/
theorem C8_budget_status_witness :
    budgetStatus 50 = "good" ∧ budgetStatus 90 = "warning" ∧ budgetStatus 150 = "over" :=
  ⟨(C8_budget_status 50).1 (by norm_num),
   (C8_budget_status 90).2.1 (by norm_num) (by norm_num),
   (C8_budget_status 150).2.2 (by norm_num)⟩

/-- C8 counterexample: at a budget percentage of exactly 80 the code
reports `good`, while the claim requires `warning`. -/
theorem C8_counterexample :
    budgetStatus 80 = "good" ∧ budgetStatus 80 ≠ "warning" := by
  decide

/-- C2 (corrected): transaction create and update reject a submitted
kind differing from the kind of the referenced category (400 with an
unchanged database; update can also answer 404 without mutating), and a
successful create preserves the kind invariant; however, updating a
kind of a category performs no check against referencing transactions, so
it can leave a transaction whose kind differs from the kind of its category
(see the counterexample). -/
theorem C2_kind_invariant :
    (∀ (db : Db) (callerId : Nat) (b : TxnBody) (newId : Nat) (c : Category),
        db.categories.find? (fun c0 => c0.id == b.category_id) = some c →
        c.type ≠ b.type → createTransaction db callerId b newId = (400, db)) ∧
    (∀ (db : Db) (role : Role) (callerId i : Nat) (b : TxnBody) (c : Category),
        db.categories.find? (fun c0 => c0.id == b.category_id) = some c →
        c.type ≠ b.type →
        updateTransaction db role callerId i b = (400, db) ∨
        updateTransaction db role callerId i b = (404, db)) ∧
    (∀ (db : Db) (callerId : Nat) (b : TxnBody) (newId : Nat),
        uniqueCategoryIds db → kindInvariant db →
        kindInvariant (createTransaction db callerId b newId).2) := by
  refine ⟨?_, ?_, ?_⟩
  · intro db callerId b newId c hfind hne
    simp only [createTransaction, hfind]
    rw [if_pos hne]
  · intro db role callerId i b c hfind hne
    unfold updateTransaction
    cases hemp : (db.transactions.filter fun t => t.id == i && ownerFilter role callerId t).isEmpty with
    | true => right; simp [hemp]
    | false => left; simp [hemp, hfind, hne]
  · intro db callerId b newId huniq hinv
    cases hfind : db.categories.find? (fun c0 => c0.id == b.category_id) with
    | none =>
      simp only [createTransaction, hfind]
      exact hinv
    | some c =>
      simp only [createTransaction, hfind]
      by_cases hty : c.type = b.type
      · rw [if_neg (fun h => h hty)]
        intro t ht c' hc' hid
        rcases List.mem_append.mp ht with hmem | hmem
        · exact hinv t hmem c' hc' hid
        · have ht' : t = ⟨newId, callerId, b.amount, b.description, b.type, b.category_id, b.date⟩ :=
            List.mem_singleton.mp hmem
          subst ht'
          have hcmem := List.mem_of_find?_eq_some hfind
          have hcid : c.id = b.category_id := by
            have hp := List.find?_some hfind
            simpa using hp
          have hcc : c' = c := by
            apply List.inj_on_of_nodup_map huniq hc' hcmem
            show c'.id = c.id
            rw [hcid]
            exact hid.symm
          show b.type = c'.type
          rw [hcc, hty]
      · rw [if_pos hty]
        exact hinv

/-- C2 witness: in `c2db`, creating an income transaction against the
expense category 1 is rejected with 400 and no write, while creating a
matching expense transaction preserves the kind invariant. -/
theorem C2_kind_invariant_witness :
    createTransaction c2db 1 ⟨7, "salary", Kind.income, 1, 0⟩ 2 = (400, c2db) ∧
    kindInvariant (createTransaction c2db 1 ⟨7, "food", Kind.expense, 1, 0⟩ 2).2 :=
  ⟨C2_kind_invariant.1 c2db 1 ⟨7, "salary", Kind.income, 1, 0⟩ 2
      ⟨1, "Food", Kind.expense, "#6366f1"⟩ (by decide) (by decide),
   C2_kind_invariant.2.2 c2db 1 ⟨7, "food", Kind.expense, 1, 0⟩ 2 (by decide) (by decide)⟩

/-- C2 counterexample: `c2db` satisfies the kind invariant, yet
`updateCategory` changing category 1 from expense to income succeeds
with 200 while its expense transaction still references it, breaking
the invariant. -/
theorem C2_counterexample :
    kindInvariant c2db ∧
    (updateCategory c2db 1 "Food" Kind.income "#6366f1").1 = 200 ∧
    ¬ kindInvariant (updateCategory c2db 1 "Food" Kind.income "#6366f1").2 := by
  refine ⟨by decide, by decide, by decide⟩

/-- C3 (corrected): the admin bypass of `checkDataOwnership` holds
unconditionally, but for non-admin callers the ownership branch of the gate
never executes, because the router-local route path `/:id` does not
contain the substring `/transactions`, so the gate always passes; a
non-admin request for a missing id or for a transaction of another user
then receives 404 from the ownership-filtered query of the handler — never
the claimed 403. -/
theorem C3_ownership_gate :
    (∀ (db : Db) (callerId : Nat) (p : String) (i : Option Nat),
        checkDataOwnership db Role.admin callerId p i = GateResult.proceed) ∧
    (∀ (db : Db) (role : Role) (callerId : Nat) (i : Option Nat),
        checkDataOwnership db role callerId transactionIdRoutePath i = GateResult.proceed) ∧
    (∀ (db : Db) (role : Role) (callerId i : Nat), role ≠ Role.admin →
        (¬ ∃ t ∈ db.transactions, t.id = i ∧ t.user_id = callerId) →
        singleTransactionGetPipeline db role callerId i = 404) := by
  have hadmin : ∀ (db : Db) (callerId : Nat) (p : String) (i : Option Nat),
      checkDataOwnership db Role.admin callerId p i = GateResult.proceed := by
    intro db callerId p i
    unfold checkDataOwnership
    rfl
  have hgate : ∀ (db : Db) (role : Role) (callerId : Nat) (i : Option Nat),
      checkDataOwnership db role callerId transactionIdRoutePath i = GateResult.proceed := by
    intro db role callerId i
    cases role with
    | admin => exact hadmin db callerId _ i
    | user =>
      unfold checkDataOwnership transactionIdRoutePath
      rw [if_neg (by decide), if_neg (by decide)]
    | readOnly =>
      unfold checkDataOwnership transactionIdRoutePath
      rw [if_neg (by decide), if_neg (by decide)]
  refine ⟨hadmin, hgate, ?_⟩
  intro db role callerId i hrole hno
  unfold singleTransactionGetPipeline
  rw [hgate]
  unfold getTransactionStatus
  rw [nonadmin_filter_nil db role callerId i hrole hno]
  rfl

/-- C3 witness: the 404 branch applied in `c3db` to non-admin caller 2
targeting transaction 7, which exists but belongs to user 1. -/
theorem C3_ownership_gate_witness :
    singleTransactionGetPipeline c3db Role.user 2 7 = 404 :=
  C3_ownership_gate.2.2 c3db Role.user 2 7 (by decide) (by decide)

/-- C3 counterexample: in `c3db`, transaction 7 exists and belongs to
user 1, yet the ownership gate lets non-admin caller 2 proceed instead
of answering 403, and the full GET /api/transactions/:id pipeline
answers 404. -/
theorem C3_counterexample :
    (∃ t ∈ c3db.transactions, t.id = 7 ∧ t.user_id ≠ 2) ∧
    checkDataOwnership c3db Role.user 2 transactionIdRoutePath (some 7) = GateResult.proceed ∧
    singleTransactionGetPipeline c3db Role.user 2 7 = 404 := by
  decide

/-- C6 (confirmed): the namespace middlewares carry the TTLs 15 min,
1 h and 5 min; on a cache miss the handler response is sent unchanged
whether or not the cache write succeeds, and a new entry is stored
under the key exactly when the response status is 200, its success flag
is not false, and the write succeeds — so a failed write never alters
the response. -/
theorem C6_cache_population :
    cacheAnalytics = cacheMiddleware (15 * 60) ∧
    cacheCategories = cacheMiddleware (60 * 60) ∧
    cacheTransactions = cacheMiddleware (5 * 60) ∧
    (∀ (expiration : Nat) (key : String) (handler : Response) (cache : Cache) (ok : Bool),
      cacheGet cache key = none →
      (cacheMiddleware expiration key handler cache ok).1 = handler ∧
      (cacheMiddleware expiration key handler cache ok).2 =
        (if handler.status = 200 ∧ handler.body.success ≠ some false ∧ ok = true
         then cacheSet cache key handler.body expiration else cache)) := by
  refine ⟨rfl, rfl, rfl, ?_⟩
  intro expiration key handler cache ok hmiss
  simp only [cacheMiddleware, hmiss]
  by_cases h : handler.status = 200 ∧ handler.body.success ≠ some false
  · rw [if_pos h]
    cases ok with
    | true =>
      have hP : handler.status = 200 ∧ handler.body.success ≠ some false ∧ (true : Bool) = true :=
        ⟨h.1, h.2, rfl⟩
      exact ⟨rfl, by rw [if_pos hP]; rfl⟩
    | false =>
      have hP : ¬ (handler.status = 200 ∧ handler.body.success ≠ some false ∧ (false : Bool) = true) :=
        fun hc => Bool.false_ne_true hc.2.2
      exact ⟨rfl, by rw [if_neg hP]; rfl⟩
  · rw [if_neg h]
    have hP : ¬ (handler.status = 200 ∧ handler.body.success ≠ some false ∧ ok = true) :=
      fun hc => h ⟨hc.1, hc.2.1⟩
    exact ⟨rfl, by rw [if_neg hP]⟩

/-- C6 witness: the population rule applied to a concrete miss on key
`k` with a successful 200 response and a working cache write. -/
theorem C6_cache_population_witness :
    (cacheMiddleware 300 "k" ⟨200, ⟨some true, "p"⟩⟩ [] true).1 = ⟨200, ⟨some true, "p"⟩⟩ ∧
    (cacheMiddleware 300 "k" ⟨200, ⟨some true, "p"⟩⟩ [] true).2 =
      (if (200 : Nat) = 200 ∧ (some true : Option Bool) ≠ some false ∧ true = true
       then cacheSet [] "k" ⟨some true, "p"⟩ 300 else []) :=
  C6_cache_population.2.2.2 300 "k" ⟨200, ⟨some true, "p"⟩⟩ [] true rfl

/-- Every month has at least 28 days. -/
theorem daysInMonth_ge (y m : Nat) : 28 ≤ daysInMonth y m := by
  unfold daysInMonth isLeapYear
  split_ifs <;> omega

/-- A day of month of at most 28 never rolls over. -/
theorem normDate_of_le28 (am d : Nat) (h : d ≤ 28) : normDate am d = ⟨am, d⟩ := by
  unfold normDate daysInAbsMonth
  rw [if_pos (le_trans h (daysInMonth_ge (am / 12) (am % 12)))]

/-- C7 (corrected): the trends array always has exactly the clamped
number of entries (clamp to [1,24], default 12), months without data
are zero-filled entries rather than omitted, and whenever the current
day of month is at most 28 the entries are one per calendar month,
consecutive in chronological order, ending with the month before the
current one.  On a day of month of 29-31 the JS `setMonth` day overflow
can duplicate one month and skip another (see the counterexample), so
the claimed "one per calendar month of the trailing window" does not
hold in general. -/
theorem C7_trends :
    (∀ (data : Nat → Option (Int × Int)) (now : JsDate) (n : Nat),
        (monthlyTrendsFill data now n).length = n) ∧
    (monthsBackOf none = some 12 ∧ monthsBackOf (some "3") = some 3) ∧
    (∀ (s : Option String) (v : Int), jsParseInt (s.getD "12") = some v →
        monthsBackOf s = some (min 24 (max 1 v)) ∧ 1 ≤ min 24 (max 1 v) ∧
          min 24 (max 1 v) ≤ 24) ∧
    (∀ (data : Nat → Option (Int × Int)) (now : JsDate) (n mk : Nat),
        mk ∈ trendsMonths now n → data mk = none →
        TrendEntry.mk mk 0 0 0 ∈ monthlyTrendsFill data now n) ∧
    (∀ (now : JsDate) (n : Nat), now.day ≤ 28 →
        trendsMonths now n = (List.range n).map (fun i => now.absMonth - n + i)) := by
  refine ⟨?_, by decide, ?_, ?_, ?_⟩
  · intro data now n
    simp [monthlyTrendsFill, trendsMonths]
  · intro s v h
    unfold monthsBackOf jsMinNum jsMaxNum
    rw [h]
    refine ⟨rfl, le_min (by norm_num) (le_max_left 1 v), min_le_left 24 (max 1 v)⟩
  · intro data now n mk hmk hdata
    unfold monthlyTrendsFill
    refine List.mem_map.mpr ⟨mk, hmk, ?_⟩
    rw [hdata]
    rfl
  · intro now n h
    simp only [trendsMonths, normDate_of_le28 _ _ h]

/-- C7 witness: the clamp and the consecutive-months shape applied at
`months=3` from 2025-05-15 (absolute month 24304, day 15). -/
theorem C7_trends_witness :
    (monthsBackOf (some "3") = some (min 24 (max 1 (3 : Int))) ∧
      (1 : Int) ≤ min 24 (max 1 3) ∧ min 24 (max 1 (3 : Int)) ≤ 24) ∧
    trendsMonths ⟨24304, 15⟩ 3 = (List.range 3).map (fun i => 24304 - 3 + i) ∧
    TrendEntry.mk 24301 0 0 0 ∈ monthlyTrendsFill (fun _ => none) ⟨24304, 15⟩ 3 :=
  ⟨C7_trends.2.2.1 (some "3") 3 (by decide),
   C7_trends.2.2.2.2 ⟨24304, 15⟩ 3 (by decide),
   C7_trends.2.2.2.1 (fun _ => none) ⟨24304, 15⟩ 3 24301 (by decide) rfl⟩

/-- C7 counterexample: from 2025-05-31 (absolute month 24304, day 31)
with `months=4` the generated month keys are January, March, March, May
of 2025 — a duplicated month and two skipped months — so the series is
not one entry per calendar month of the trailing window. -/
theorem C7_counterexample :
    monthsBackOf (some "4") = some 4 ∧
    trendsMonths ⟨24304, 31⟩ 4 = [24300, 24302, 24302, 24304] ∧
    ¬ (trendsMonths ⟨24304, 31⟩ 4).Nodup := by
  decide

/-- C9 (confirmed): token verification succeeds, attaching a resolved
user, exactly when a bearer token is present, its signature verifies to
the id of that user without being expired, and the user row still exists;
every failure is a 401, whose message is the Expired one exactly in the
validly-signed-but-expired case — the missing-token, malformed-token
and deleted-user failures all carry other (Invalid-family) messages. -/
theorem C9_token_verification :
    ∀ (verify : String → VerifyResult) (users : List User) (h : Option String),
      (∀ u, authenticateToken verify users h = AuthResult.success u ↔
        ∃ tok, extractToken h = some tok ∧ verify tok = VerifyResult.ok u.id ∧
          users.find? (fun u0 => u0.id == u.id) = some u) ∧
      (∀ s m, authenticateToken verify users h = AuthResult.failure s m →
        s = 401 ∧
        (m = "Token expired" ↔
          ∃ tok, extractToken h = some tok ∧ verify tok = VerifyResult.expired)) := by
  intro verify users h
  cases hex : extractToken h with
  | none =>
    refine ⟨?_, ?_⟩
    · intro u
      constructor
      · intro hs
        simp only [authenticateToken, hex] at hs
        exact AuthResult.noConfusion hs
      · rintro ⟨tok, htok, -, -⟩
        exact Option.noConfusion htok
    · intro s m hf
      simp only [authenticateToken, hex] at hf
      injection hf with h1 h2
      refine ⟨h1.symm, ?_, ?_⟩
      · intro hm
        rw [← h2] at hm
        exact absurd hm (by decide)
      · rintro ⟨tok, htok, -⟩
        exact Option.noConfusion htok
  | some tok =>
    cases hv : verify tok with
    | malformed =>
      refine ⟨?_, ?_⟩
      · intro u
        constructor
        · intro hs
          simp only [authenticateToken, hex, hv] at hs
          exact AuthResult.noConfusion hs
        · rintro ⟨tok2, htok2, hvtok2, -⟩
          injection htok2 with he
          subst he
          rw [hv] at hvtok2
          exact VerifyResult.noConfusion hvtok2
      · intro s m hf
        simp only [authenticateToken, hex, hv] at hf
        injection hf with h1 h2
        refine ⟨h1.symm, ?_, ?_⟩
        · intro hm
          rw [← h2] at hm
          exact absurd hm (by decide)
        · rintro ⟨tok2, htok2, hvtok2⟩
          injection htok2 with he
          subst he
          rw [hv] at hvtok2
          exact VerifyResult.noConfusion hvtok2
    | expired =>
      refine ⟨?_, ?_⟩
      · intro u
        constructor
        · intro hs
          simp only [authenticateToken, hex, hv] at hs
          exact AuthResult.noConfusion hs
        · rintro ⟨tok2, htok2, hvtok2, -⟩
          injection htok2 with he
          subst he
          rw [hv] at hvtok2
          exact VerifyResult.noConfusion hvtok2
      · intro s m hf
        simp only [authenticateToken, hex, hv] at hf
        injection hf with h1 h2
        refine ⟨h1.symm, ?_, ?_⟩
        · intro _
          exact ⟨tok, rfl, hv⟩
        · intro _
          exact h2.symm
    | ok uid =>
      cases hfindu : users.find? (fun u0 => u0.id == uid) with
      | none =>
        refine ⟨?_, ?_⟩
        · intro u
          constructor
          · intro hs
            simp only [authenticateToken, hex, hv, hfindu] at hs
            exact AuthResult.noConfusion hs
          · rintro ⟨tok2, htok2, hvtok2, hfu⟩
            injection htok2 with he
            subst he
            rw [hv] at hvtok2
            injection hvtok2 with he2
            rw [← he2] at hfu
            rw [hfindu] at hfu
            exact Option.noConfusion hfu
        · intro s m hf
          simp only [authenticateToken, hex, hv, hfindu] at hf
          injection hf with h1 h2
          refine ⟨h1.symm, ?_, ?_⟩
          · intro hm
            rw [← h2] at hm
            exact absurd hm (by decide)
          · rintro ⟨tok2, htok2, hvtok2⟩
            injection htok2 with he
            subst he
            rw [hv] at hvtok2
            exact VerifyResult.noConfusion hvtok2
      | some u0 =>
        have hid0 : u0.id = uid := by
          have hp := List.find?_some hfindu
          simpa using hp
        refine ⟨?_, ?_⟩
        · intro u
          constructor
          · intro hs
            simp only [authenticateToken, hex, hv, hfindu] at hs
            injection hs with he
            subst he
            refine ⟨tok, rfl, ?_, ?_⟩
            · rw [hv, hid0]
            · rw [hid0]
              exact hfindu
          · rintro ⟨tok2, htok2, hvtok2, hfu⟩
            injection htok2 with he
            subst he
            rw [hv] at hvtok2
            injection hvtok2 with he2
            rw [← he2] at hfu
            rw [hfindu] at hfu
            injection hfu with he3
            simp only [authenticateToken, hex, hv, hfindu]
            rw [he3]
        · intro s m hf
          simp only [authenticateToken, hex, hv, hfindu] at hf
          exact AuthResult.noConfusion hf

/-- C9 witness: the characterization applied to the concrete verifier
`verify9` and store `users9`, for an expired token and for a valid
token of user 1. -/
theorem C9_token_verification_witness :
    ((401 : Nat) = 401 ∧
      ("Token expired" = "Token expired" ↔
        ∃ tok, extractToken (some "Bearer exp") = some tok ∧
          verify9 tok = VerifyResult.expired)) ∧
    (authenticateToken verify9 users9 (some "Bearer tok1") =
        AuthResult.success ⟨1, "a@x", "A", Role.user⟩ ↔
      ∃ tok, extractToken (some "Bearer tok1") = some tok ∧
        verify9 tok = VerifyResult.ok 1 ∧
        users9.find? (fun u0 => u0.id == 1) = some ⟨1, "a@x", "A", Role.user⟩) :=
  ⟨(C9_token_verification verify9 users9 (some "Bearer exp")).2 401 "Token expired" (by decide),
   (C9_token_verification verify9 users9 (some "Bearer tok1")).1 ⟨1, "a@x", "A", Role.user⟩⟩

/-- Strings with no colon have colon-free character lists. -/
theorem colonFree_not_mem (s : String) (h : colonFree s = true) : ':' ∉ s.data := by
  intro hm
  have h2 := List.all_eq_true.mp h ':' hm
  simp at h2

/-- Two strings with equal character lists are equal. -/
theorem strData_inj (a b : String) (h : a.data = b.data) : a = b := by
  cases a
  cases b
  exact congrArg String.mk h

/-- A colon-free word followed by a colon is never a prefix of a
different colon-free word followed by a colon: the colon acts as a
terminator. -/
theorem no_colon_prefix (xs : List Char) : ∀ (ys t : List Char), ':' ∉ xs → ':' ∉ ys →
    xs ≠ ys → ¬ (xs ++ [':']) <+: (ys ++ ':' :: t) := by
  induction xs with
  | nil =>
    intro ys t hx hy hne hp
    cases ys with
    | nil => exact hne rfl
    | cons y ys2 =>
      rcases hp with ⟨u, hu⟩
      simp only [List.nil_append, List.cons_append] at hu
      injection hu with h1 _
      rw [← h1] at hy
      exact hy (List.mem_cons_self ':' ys2)
  | cons x xs2 ih =>
    intro ys t hx hy hne hp
    cases ys with
    | nil =>
      rcases hp with ⟨u, hu⟩
      simp only [List.nil_append, List.cons_append, List.append_assoc] at hu
      injection hu with h1 _
      rw [h1] at hx
      exact hx (List.mem_cons_self ':' xs2)
    | cons y ys2 =>
      rcases hp with ⟨u, hu⟩
      simp only [List.cons_append, List.append_assoc] at hu
      injection hu with h1 h2
      have hx2 : ':' ∉ xs2 := fun hm => hx (List.mem_cons_of_mem x hm)
      have hy2 : ':' ∉ ys2 := fun hm => hy (List.mem_cons_of_mem y hm)
      have hne2 : xs2 ≠ ys2 := fun he => hne (by rw [h1, he])
      exact ih ys2 t hx2 hy2 hne2 ⟨u, by rw [List.append_assoc]; exact h2⟩

/-- A `<head><id>:` pattern never matches a key built from a different
colon-free id under the same head. -/
theorem pattern_miss (head a o suf : String) (ha : colonFree a = true)
    (ho : colonFree o = true) (hne : a ≠ o) :
    strIsPrefixOf (head ++ a ++ ":") (head ++ o ++ ":" ++ suf) = false := by
  rw [Bool.eq_false_iff]
  intro hp
  unfold strIsPrefixOf at hp
  rw [List.isPrefixOf_iff_prefix] at hp
  simp only [String.data_append, List.append_assoc] at hp
  rw [List.prefix_append_right_inj] at hp
  exact no_colon_prefix a.data o.data suf.data (colonFree_not_mem a ha)
    (colonFree_not_mem o ho) (fun he => hne (strData_inj a o he)) hp

/-- Appending a common head preserves a failed prefix test. -/
theorem ua_pattern_miss (head a o : String) (h : strIsPrefixOf a o = false) :
    strIsPrefixOf (head ++ a) (head ++ o) = false := by
  rw [Bool.eq_false_iff] at h ⊢
  intro hp
  apply h
  unfold strIsPrefixOf at hp ⊢
  rw [List.isPrefixOf_iff_prefix] at hp ⊢
  simp only [String.data_append] at hp
  rwa [List.prefix_append_right_inj] at hp

/-- A pattern starting with one character never matches a key starting
with a different one. -/
theorem head_char_miss (p s : String) (c d : Char) (l1 l2 : List Char)
    (hp : p.data = c :: l1) (hs : s.data = d :: l2) (hne : c ≠ d) :
    strIsPrefixOf p s = false := by
  rw [Bool.eq_false_iff]
  intro hpre
  unfold strIsPrefixOf at hpre
  rw [List.isPrefixOf_iff_prefix, hp, hs] at hpre
  rcases hpre with ⟨u, hu⟩
  rw [List.cons_append] at hu
  injection hu with h1 _
  exact hne h1

/-- Membership after `invalidateUserCache`: an entry survives exactly
when it matches none of the three per-user patterns. -/
theorem mem_invalidateUserCache (a : String) (cache : Cache)
    (entry : String × JsonBody × Nat) :
    entry ∈ invalidateUserCache a cache ↔
      entry ∈ cache ∧ strIsPrefixOf ("analytics:" ++ a ++ ":") entry.1 = false ∧
        strIsPrefixOf ("transactions:" ++ a ++ ":") entry.1 = false ∧
        strIsPrefixOf ("user_analytics:" ++ a) entry.1 = false := by
  simp only [invalidateUserCache, deleteCachePattern, List.mem_filter,
    Bool.not_eq_true']
  tauto

/-- C10 (corrected): after a successful admin mutation of a transaction
of another user, the post-response invalidation targets only the three
patterns of the admin; every owner entry under `analytics:<o>:`
and `transactions:<o>:` survives, and the owner entry `user_analytics:<o>`
entry survives whenever the admin id string is not a prefix of the
owner id string — but because the `user_analytics:<id>*` pattern lacks
a terminating colon, an owner id extending the admin id (for example
owner 12, admin 1) has its `user_analytics` entry deleted as well (see
the counterexample), so the claimed "every cache entry under the target
owner namespace is left unchanged" does not hold in general. -/
theorem C10_admin_invalidation_frame :
    ∀ (a o : String) (resp : Response) (cache : Cache)
      (entry : String × JsonBody × Nat),
      colonFree a = true → colonFree o = true → a ≠ o → entry ∈ cache →
      (∀ suf, (entry.1 = "analytics:" ++ o ++ ":" ++ suf ∨
               entry.1 = "transactions:" ++ o ++ ":" ++ suf) →
          entry ∈ invalidateUserCacheAfterTransaction a resp cache) ∧
      (entry.1 = "user_analytics:" ++ o → strIsPrefixOf a o = false →
          entry ∈ invalidateUserCacheAfterTransaction a resp cache) ∧
      (entry ∉ invalidateUserCacheAfterTransaction a resp cache →
          strIsPrefixOf ("analytics:" ++ a ++ ":") entry.1 = true ∨
          strIsPrefixOf ("transactions:" ++ a ++ ":") entry.1 = true ∨
          strIsPrefixOf ("user_analytics:" ++ a) entry.1 = true) := by
  intro a o resp cache entry ha ho hne hmem
  unfold invalidateUserCacheAfterTransaction
  by_cases hsucc : 200 ≤ resp.status ∧ resp.status < 300 ∧ resp.body.success ≠ some false
  · rw [if_pos hsucc]
    refine ⟨?_, ?_, ?_⟩
    · intro suf hk
      rw [mem_invalidateUserCache]
      rcases hk with hk | hk
      · refine ⟨hmem, ?_, ?_, ?_⟩
        · rw [hk]
          exact pattern_miss "analytics:" a o suf ha ho hne
        · rw [hk]
          exact head_char_miss _ _ 't' 'a' _ _ rfl rfl (by decide)
        · rw [hk]
          exact head_char_miss _ _ 'u' 'a' _ _ rfl rfl (by decide)
      · refine ⟨hmem, ?_, ?_, ?_⟩
        · rw [hk]
          exact head_char_miss _ _ 'a' 't' _ _ rfl rfl (by decide)
        · rw [hk]
          exact pattern_miss "transactions:" a o suf ha ho hne
        · rw [hk]
          exact head_char_miss _ _ 'u' 't' _ _ rfl rfl (by decide)
    · intro hk hnp
      rw [mem_invalidateUserCache]
      refine ⟨hmem, ?_, ?_, ?_⟩
      · rw [hk]
        exact head_char_miss _ _ 'a' 'u' _ _ rfl rfl (by decide)
      · rw [hk]
        exact head_char_miss _ _ 't' 'u' _ _ rfl rfl (by decide)
      · rw [hk]
        exact ua_pattern_miss "user_analytics:" a o hnp
    · intro hnot
      by_contra hall
      push_neg at hall
      apply hnot
      rw [mem_invalidateUserCache]
      exact ⟨hmem, Bool.eq_false_iff.mpr hall.1, Bool.eq_false_iff.mpr hall.2.1,
        Bool.eq_false_iff.mpr hall.2.2⟩
  · rw [if_neg hsucc]
    exact ⟨fun _ _ => hmem, fun _ _ => hmem, fun hnot => absurd hmem hnot⟩

/-- C10 witness: the frame theorem applied to admin id 1, owner id 2
and the owner entry `transactions:2:x`, which survives the
invalidation triggered by the successful admin mutation. -/
theorem C10_admin_invalidation_frame_witness :
    ("transactions:2:x", (⟨some true, "d"⟩ : JsonBody), (300 : Nat)) ∈
      invalidateUserCacheAfterTransaction "1" ⟨200, ⟨some true, "ok"⟩⟩
        [("transactions:2:x", ⟨some true, "d"⟩, 300)] :=
  (C10_admin_invalidation_frame "1" "2" ⟨200, ⟨some true, "ok"⟩⟩
      [("transactions:2:x", ⟨some true, "d"⟩, 300)]
      ("transactions:2:x", ⟨some true, "d"⟩, 300)
      (by decide) (by decide) (by decide) (by decide)).1 "x" (Or.inr rfl)

/-- C10 counterexample: admin id 1 successfully mutates a transaction
of owner 12; the invalidation deletes the cache entry
`user_analytics:12` of the owner, because `user_analytics:1*` matches
it — so not every entry under the owner namespace is left
unchanged. -/
theorem C10_counterexample :
    invalidateUserCacheAfterTransaction "1" ⟨200, ⟨some true, "ok"⟩⟩
      [(userAnalyticsKeyGenerator "12", ⟨some true, "cached"⟩, 900)] = [] := by
  decide

end Tracker
